import Mathlib

/-!
Verification of the session/mode state machine and geodesy calculator of the
WebBotTele repository, against its natural-language specification.

The definitions below are shallow embeddings of the TypeScript source:

* `apps/backend/src/telegram/features/location.service.ts`
  (distance measurement workflow, haversine distance, duration estimation,
  result formatting);
* `apps/backend/src/telegram/features/geotags.service.ts`
  (TTL sweep over per-user states);
* `apps/backend/src/telegram/features/kml.service.ts`
  (KML point/line authoring);
* the `ModeManager` / `ModeTransitionManager` code of
  `.cline/workflows/web-admin-development.md`.

JavaScript numbers are modelled as real numbers, timestamps as integers,
`Map<K, V>` as functions `K → Option V` (per-key semantics), thrown
exceptions as `Except`, and `null`/`undefined` as `Option.none`.
Definitions whose names start with `spec` follow the specification's words
and are compared with the corresponding code-derived definitions.
-/

namespace WebBotTele

/-! ### Geodesy calculator (location.service.ts) -/

/-- JavaScript `Math.atan2(y, x)` on real numbers (the standard piecewise
definition; only the `x > 0` and `x = 0, y > 0` branches are exercised by
`calculateDistance`). -/
noncomputable def jsAtan2 (y x : ℝ) : ℝ :=
  if 0 < x then Real.arctan (y / x)
  else if x < 0 then
    (if 0 ≤ y then Real.arctan (y / x) + Real.pi else Real.arctan (y / x) - Real.pi)
  else if 0 < y then Real.pi / 2
  else if y < 0 then -(Real.pi / 2)
  else 0

/-- `LocationService.calculateDistance(lat1, lon1, lat2, lon2)`: haversine
distance in meters with Earth radius `R = 6371e3`, written in the source as
`c = 2 * atan2(sqrt a, sqrt (1 - a))`, `d = R * c`. -/
noncomputable def calculateDistance (lat1 lon1 lat2 lon2 : ℝ) : ℝ :=
  let R : ℝ := 6371000
  let phi1 := lat1 * Real.pi / 180
  let phi2 := lat2 * Real.pi / 180
  let dPhi := (lat2 - lat1) * Real.pi / 180
  let dLam := (lon2 - lon1) * Real.pi / 180
  let a := Real.sin (dPhi / 2) * Real.sin (dPhi / 2) +
    Real.cos phi1 * Real.cos phi2 * Real.sin (dLam / 2) * Real.sin (dLam / 2)
  let c := 2 * jsAtan2 (Real.sqrt a) (Real.sqrt (1 - a))
  R * c

/-- Reference great-circle distance following the specification's words
(§4.4): "great-circle distance via the haversine formula using a mean Earth
radius of 6,371,000 m", in the classic `2 R · arcsin (sqrt a)` form. -/
noncomputable def specHaversineDistance (lat1 lon1 lat2 lon2 : ℝ) : ℝ :=
  let R : ℝ := 6371000
  let phi1 := lat1 * Real.pi / 180
  let phi2 := lat2 * Real.pi / 180
  let dPhi := (lat2 - lat1) * Real.pi / 180
  let dLam := (lon2 - lon1) * Real.pi / 180
  let a := Real.sin (dPhi / 2) ^ 2 + Real.cos phi1 * Real.cos phi2 * Real.sin (dLam / 2) ^ 2
  2 * R * Real.arcsin (Real.sqrt a)

/-- For `a ∈ [0, 1]`, the `atan2` form of the haversine central angle agrees
with the `arcsin` form. -/
lemma jsAtan2_sqrt_eq_arcsin {a : ℝ} (h0 : 0 ≤ a) (h1 : a ≤ 1) :
    jsAtan2 (Real.sqrt a) (Real.sqrt (1 - a)) = Real.arcsin (Real.sqrt a) := by
  rcases lt_or_eq_of_le h1 with hlt | heq
  · have hx : 0 < Real.sqrt (1 - a) := Real.sqrt_pos.mpr (by linarith)
    have hsa : Real.sqrt a < 1 := by
      rw [Real.sqrt_lt' one_pos]
      nlinarith
    have hmem : Real.sqrt a ∈ Set.Ioo (-(1 : ℝ)) 1 :=
      ⟨lt_of_lt_of_le (by norm_num) (Real.sqrt_nonneg a), hsa⟩
    rw [jsAtan2, if_pos hx, Real.arcsin_eq_arctan hmem, Real.sq_sqrt h0]
  · subst heq
    have h1a : Real.sqrt (1 - 1 : ℝ) = 0 := by norm_num
    rw [jsAtan2, h1a, Real.sqrt_one]
    norm_num [Real.arcsin_one]

/-- The haversine term `sin²((y−x)/2) + cos x · cos y · sin²(t/2)` is
nonnegative whenever both cosines are nonnegative. -/
lemma haversine_core_nonneg (x y t : ℝ) (hcx : 0 ≤ Real.cos x) (hcy : 0 ≤ Real.cos y) :
    0 ≤ Real.sin ((y - x) / 2) ^ 2 + Real.cos x * Real.cos y * Real.sin (t / 2) ^ 2 := by
  have := sq_nonneg (Real.sin ((y - x) / 2))
  have := sq_nonneg (Real.sin (t / 2))
  nlinarith [mul_nonneg hcx hcy]

/-- The haversine term is at most `1` whenever both cosines are nonnegative. -/
lemma haversine_core_le_one (x y t : ℝ) (hcx : 0 ≤ Real.cos x) (hcy : 0 ≤ Real.cos y) :
    Real.sin ((y - x) / 2) ^ 2 + Real.cos x * Real.cos y * Real.sin (t / 2) ^ 2 ≤ 1 := by
  have hs1 : Real.sin ((y - x) / 2) ^ 2 = 1 / 2 - Real.cos (y - x) / 2 := by
    have := Real.sin_sq_eq_half_sub ((y - x) / 2)
    rwa [show 2 * ((y - x) / 2) = y - x by ring] at this
  have hs2 : Real.sin (t / 2) ^ 2 = 1 / 2 - Real.cos t / 2 := by
    have := Real.sin_sq_eq_half_sub (t / 2)
    rwa [show 2 * (t / 2) = t by ring] at this
  have hsub : Real.cos (y - x) = Real.cos y * Real.cos x + Real.sin y * Real.sin x :=
    Real.cos_sub y x
  have hadd : Real.cos (x + y) = Real.cos x * Real.cos y - Real.sin x * Real.sin y :=
    Real.cos_add x y
  have hle : Real.cos (x + y) ≤ 1 := Real.cos_le_one _
  have hct : -1 ≤ Real.cos t := Real.neg_one_le_cos t
  have hprod : 0 ≤ Real.cos x * Real.cos y * (Real.cos t + 1) :=
    mul_nonneg (mul_nonneg hcx hcy) (by linarith)
  nlinarith [hprod]

/-- Latitudes within `[-90, 90]` map to angles in `[-π/2, π/2]`, where the
cosine is nonnegative. -/
lemma cos_lat_nonneg {lat : ℝ} (h : |lat| ≤ 90) : 0 ≤ Real.cos (lat * Real.pi / 180) := by
  have hpi := Real.pi_pos
  have h1 : -90 ≤ lat := (abs_le.mp h).1
  have h2 : lat ≤ 90 := (abs_le.mp h).2
  apply Real.cos_nonneg_of_mem_Icc
  constructor
  · have hp : 0 ≤ (lat + 90) * Real.pi := mul_nonneg (by linarith) hpi.le
    nlinarith [hp]
  · have hp : 0 ≤ (90 - lat) * Real.pi := mul_nonneg (by linarith) hpi.le
    nlinarith [hp]

/-- The transport mode of a measurement (`'car' | 'motorcycle' | 'foot'`). -/
inductive TransportMode where
  | car
  | motorcycle
  | foot
deriving DecidableEq

/-- The `switch (transportMode)` block of `LocationService.calculateRoute`:
rough time estimation in seconds (`distance / v * 3.6` for an average speed
of `v` km/h; 50 for car, 40 for motorcycle, 5 walking). -/
noncomputable def estimatedTime (mode : TransportMode) (distance : ℝ) : ℝ :=
  match mode with
  | .car => distance / 50 * 3.6
  | .motorcycle => distance / 40 * 3.6
  | .foot => distance / 5 * 3.6

/-- JavaScript `Math.round` (round half toward positive infinity). -/
noncomputable def jsRound (x : ℝ) : ℤ := ⌊x + 1 / 2⌋

/-- JavaScript `Math.floor`. -/
noncomputable def jsFloor (x : ℝ) : ℤ := ⌊x⌋

/-- JavaScript `Math.trunc` (round toward zero), used to model the `%`
remainder operator. -/
noncomputable def jsTrunc (x : ℝ) : ℤ := if 0 ≤ x then ⌊x⌋ else -⌊-x⌋

/-- JavaScript `x % y` on numbers: remainder with the dividend's sign. -/
noncomputable def jsFmod (x y : ℝ) : ℝ := x - y * (jsTrunc (x / y) : ℝ)

/-- `x.toFixed(2)` modelled as the integer number of hundredths after
rounding to two decimal places. -/
noncomputable def jsToFixed2 (x : ℝ) : ℤ := jsRound (x * 100)

/-- A formatted distance: either whole meters or hundredths of kilometers
(two decimal places). -/
inductive DistText where
  | meters (value : ℤ)
  | kilometers (hundredths : ℤ)
deriving DecidableEq

/-- The `formattedDistance` expression of `LocationService.calculateRoute`:
`distance < 1000 ? round(distance) meter : (distance / 1000).toFixed(2)
kilometer`. -/
noncomputable def formattedDistance (distance : ℝ) : DistText :=
  if distance < 1000 then .meters (jsRound distance)
  else .kilometers (jsToFixed2 (distance / 1000))

/-- A formatted duration: whole seconds, whole minutes, or hours and
minutes. -/
inductive DurText where
  | seconds (value : ℤ)
  | minutes (value : ℤ)
  | hoursMinutes (hours minutes : ℤ)
deriving DecidableEq

/-- `LocationService.formatDuration(seconds)`. -/
noncomputable def formatDuration (seconds : ℝ) : DurText :=
  if seconds < 60 then .seconds (jsRound seconds)
  else if seconds < 3600 then .minutes (jsFloor (seconds / 60))
  else .hoursMinutes (jsFloor (seconds / 3600)) (jsFloor (jsFmod seconds 3600 / 60))

/-- Fixed average speed constants of the spec (§4.4), in km/h. -/
def speedKmh : TransportMode → ℝ
  | .foot => 5
  | .motorcycle => 40
  | .car => 50

/-- Duration following the spec's words (§4.4): `distance / speed(profile)`,
with the km/h constant converted to meters per second. -/
noncomputable def specDurationSeconds (distance : ℝ) (mode : TransportMode) : ℝ :=
  distance / (speedKmh mode * 1000 / 3600)

/-- Distance formatting following the spec's words (§4.4): under 1000 m in
whole meters, otherwise kilometers to two decimal places. -/
noncomputable def specFormatDistance (distance : ℝ) : DistText :=
  if distance < 1000 then .meters (jsRound distance)
  else .kilometers (jsRound (distance / 1000 * 100))

/-- Duration formatting following the spec's words (§4.4): under 60 s in
whole seconds, under 3600 s in whole minutes (floored), otherwise hours and
remaining minutes. -/
noncomputable def specFormatDuration (s : ℝ) : DurText :=
  if s < 60 then .seconds (jsRound s)
  else if s < 3600 then .minutes (jsFloor (s / 60))
  else .hoursMinutes (jsFloor (s / 3600))
    (jsFloor ((s - 3600 * (jsFloor (s / 3600) : ℝ)) / 60))

/-- Auxiliary: the `R * c` form with `atan2` rewrites to the `2 R arcsin`
form when the haversine term lies in `[0, 1]`. -/
lemma radius_mul_angle_eq {a R : ℝ} (h0 : 0 ≤ a) (h1 : a ≤ 1) :
    R * (2 * jsAtan2 (Real.sqrt a) (Real.sqrt (1 - a))) =
      2 * R * Real.arcsin (Real.sqrt a) := by
  rw [jsAtan2_sqrt_eq_arcsin h0 h1]; ring

/-- Claim C4: for every pair of valid GeoPoints, `calculateDistance` equals
the great-circle distance given by the haversine formula (classic `arcsin`
form) with mean Earth radius 6,371,000 m; in particular the two computations
agree (exactly, hence to within 1 meter) on any concrete input. -/
theorem C4_distance_is_haversine (lat1 lon1 lat2 lon2 : ℝ)
    (h1 : |lat1| ≤ 90) (h2 : |lat2| ≤ 90) :
    calculateDistance lat1 lon1 lat2 lon2 = specHaversineDistance lat1 lon1 lat2 lon2 := by
  have hcx := cos_lat_nonneg h1
  have hcy := cos_lat_nonneg h2
  have h0 := haversine_core_nonneg (lat1 * Real.pi / 180) (lat2 * Real.pi / 180)
    ((lon2 - lon1) * Real.pi / 180) hcx hcy
  have hle := haversine_core_le_one (lat1 * Real.pi / 180) (lat2 * Real.pi / 180)
    ((lon2 - lon1) * Real.pi / 180) hcx hcy
  have hd : (lat2 - lat1) * Real.pi / 180 = lat2 * Real.pi / 180 - lat1 * Real.pi / 180 := by
    ring
  have hq : ∀ s c1 c2 u : ℝ, s * s + c1 * c2 * u * u = s ^ 2 + c1 * c2 * u ^ 2 := by
    intros; ring
  simp only [calculateDistance, specHaversineDistance]
  rw [hd, hq]
  exact radius_mul_angle_eq h0 hle

/-- Witness for C4 at the spec's concrete scenario points
`(-7.257056, 112.648000)` and `(-7.6382862, 112.7372882)`: the computed
distance agrees with the reference haversine computation to within 1 meter
(in fact exactly). -/
theorem C4_distance_is_haversine_witness :
    |calculateDistance (-7.257056) 112.648 (-7.6382862) 112.7372882 -
      specHaversineDistance (-7.257056) 112.648 (-7.6382862) 112.7372882| ≤ 1 := by
  rw [C4_distance_is_haversine (-7.257056) 112.648 (-7.6382862) 112.7372882
    (by norm_num [abs_le]) (by norm_num [abs_le])]
  norm_num

/-- Claim C5: estimated duration equals distance divided by the profile's
fixed average speed (5 / 40 / 50 km/h converted to m/s), and the formatted
distance and duration follow the spec's formatting rule. -/
theorem C5_duration_and_formatting (d s : ℝ) (mode : TransportMode) :
    estimatedTime mode d = specDurationSeconds d mode ∧
    formattedDistance d = specFormatDistance d ∧
    formatDuration s = specFormatDuration s := by
  refine ⟨?_, ?_, ?_⟩
  · cases mode <;>
      simp only [estimatedTime, specDurationSeconds, speedKmh] <;>
      · rw [div_mul_eq_mul_div, div_eq_div_iff (by norm_num) (by norm_num)]
        ring_nf
  · rfl
  · unfold formatDuration specFormatDuration
    split_ifs with hlt60 hlt3600
    · rfl
    · rfl
    · have hpos : (0 : ℝ) ≤ s / 3600 := div_nonneg (by linarith) (by norm_num)
      simp only [jsFmod, jsTrunc, if_pos hpos, jsFloor]

/-- Claim C9: the distance from any point to itself is 0, and the estimated
duration of a zero distance is 0 for every travel profile (the real-valued
model is total: no NaN and no division error arises). -/
theorem C9_distance_self_zero (lat lon : ℝ) :
    calculateDistance lat lon lat lon = 0 ∧
    ∀ mode : TransportMode, estimatedTime mode (calculateDistance lat lon lat lon) = 0 := by
  have h : calculateDistance lat lon lat lon = 0 := by
    simp only [calculateDistance, sub_self, zero_mul, zero_div]
    norm_num [jsAtan2, Real.sin_zero, Real.sqrt_zero, Real.sqrt_one, Real.arctan_zero]
  refine ⟨h, fun mode => ?_⟩
  rw [h]
  cases mode <;> simp [estimatedTime]

/-! ### Measurement workflow (location.service.ts) -/

/-- A `LocationPoint` (`latitude`, `longitude`, optional `address`). -/
structure LocationPoint where
  latitude : ℝ
  longitude : ℝ
  address : Option String

/-- A per-user `UserMeasurementState` entry of
`LocationService.userMeasurementStates`. -/
structure UserMeasurementState where
  isActive : Bool
  firstPoint : Option LocationPoint
  secondPoint : Option LocationPoint
  timestamp : ℤ
  transportMode : Option TransportMode

/-- `LocationService.initUserMeasurementState`: stores a fresh entry with
`isActive: false` and `timestamp: Date.now()`; all other fields absent. -/
def initUserMeasurementState (now : ℤ) : UserMeasurementState :=
  { isActive := false, firstPoint := none, secondPoint := none,
    timestamp := now, transportMode := none }

/-- `LocationService.startMeasurement`: initializes the entry, then sets
`isActive := true` and the transport mode. -/
def startMeasurement (now : ℤ) (mode : TransportMode) : UserMeasurementState :=
  { initUserMeasurementState now with isActive := true, transportMode := some mode }

/-- Outcome of the external Nominatim reverse-geocoding call: a response
with a (non-empty) `display_name`, a response without one, or a thrown
HTTP/network error. -/
inductive GeocodeOutcome where
  | found (displayName : String)
  | noData
  | fail
deriving DecidableEq

/-- `LocationService.getAddressFromCoordinates(lat, lon)`: returns the
resolved point on success, `null` when the response has no `display_name`,
and logs and rethrows on a thrown error. -/
def getAddressFromCoordinates (geo : GeocodeOutcome) (lat lon : ℝ) :
    Except Unit (Option LocationPoint) :=
  match geo with
  | .found name => .ok (some { latitude := lat, longitude := lon, address := some name })
  | .noData => .ok none
  | .fail => .error ()

/-- The result object of `LocationService.calculateRoute` (the `message`
string is determined by these fields and is omitted). -/
structure RouteResult where
  firstPoint : LocationPoint
  secondPoint : LocationPoint
  distance : DistText
  duration : DurText
  transportMode : TransportMode

/-- `LocationService.calculateRoute(firstPoint, secondPoint, transportMode)`. -/
noncomputable def calculateRoute (p1 p2 : LocationPoint) (mode : TransportMode) :
    RouteResult :=
  let distance := calculateDistance p1.latitude p1.longitude p2.latitude p2.longitude
  { firstPoint := p1, secondPoint := p2,
    distance := formattedDistance distance,
    duration := formatDuration (estimatedTime mode distance),
    transportMode := mode }

/-- The non-null replies of `LocationService.processLocationForMeasurement`:
a `first_point` confirmation (carrying the resolved address) or a
`measurement_result`. -/
inductive MeasurementReply where
  | firstPointReceived (address : String) (latitude longitude : ℝ)
  | measurementResult (result : RouteResult)

/-- Whether a reply is a `measurement_result`. -/
def MeasurementReply.isResult : MeasurementReply → Bool
  | .measurementResult _ => true
  | _ => false

/-- `LocationService.processLocationForMeasurement(telegramId, lat, lon)`,
as a function of the user's map entry, the coordinates, the geocoder
outcome and the current time. Returns the reply (or `null`) together with
the user's new map entry; a rethrown geocoder error is an `Except.error`. -/
noncomputable def processLocationForMeasurement (entry : Option UserMeasurementState)
    (lat lon : ℝ) (geo : GeocodeOutcome) (now : ℤ) :
    Except Unit (Option MeasurementReply × Option UserMeasurementState) :=
  match entry with
  | none => .ok (none, none)
  | some st =>
    if st.isActive then
      match getAddressFromCoordinates geo lat lon with
      | .error e => .error e
      | .ok addressData =>
        let address : String :=
          match addressData with
          | some p => p.address.getD "Lokasi tidak diketahui"
          | none => "Lokasi tidak diketahui"
        match st.firstPoint with
        | none =>
          let st' := { st with
            firstPoint := some { latitude := lat, longitude := lon, address := some address },
            timestamp := now }
          .ok (some (.firstPointReceived address lat lon), some st')
        | some fp =>
          match st.secondPoint with
          | none =>
            let sp : LocationPoint :=
              { latitude := lat, longitude := lon, address := some address }
            let result := calculateRoute fp sp (st.transportMode.getD .foot)
            .ok (some (.measurementResult result), some (initUserMeasurementState now))
          | some _ => .ok (none, some st)
    else .ok (none, some st)

/-- `LocationService.cancelMeasurement(telegramId)`: if an active
measurement exists, reset the entry and confirm; otherwise reply that there
is nothing to cancel (entry untouched). -/
def cancelMeasurement (entry : Option UserMeasurementState) (now : ℤ) :
    String × Option UserMeasurementState :=
  match entry with
  | some st =>
    if st.isActive then
      ("Pengukuran jarak dan rute dibatalkan.", some (initUserMeasurementState now))
    else
      ("Tidak ada pengukuran aktif untuk dibatalkan.", entry)
  | none => ("Tidak ada pengukuran aktif untuk dibatalkan.", entry)

/-- The spec's workflow steps (§4.3), derived from the observable behavior
of `processLocationForMeasurement`: an inactive entry ignores locations; an
active entry without a first point accepts it as the first point; an active
entry with only a first point accepts the second point. -/
inductive MeasStep where
  | inactive
  | awaitingFirstPoint
  | awaitingSecondPoint
  | complete
deriving DecidableEq

/-- Step classification of a user's measurement map entry. -/
def measStepOf : Option UserMeasurementState → MeasStep
  | none => .inactive
  | some st =>
    if st.isActive then
      match st.firstPoint with
      | none => .awaitingFirstPoint
      | some _ =>
        match st.secondPoint with
        | none => .awaitingSecondPoint
        | some _ => .complete
    else .inactive

/-- Reply projection of a `processLocationForMeasurement` outcome. -/
def resultReply :
    Except Unit (Option MeasurementReply × Option UserMeasurementState) →
      Option MeasurementReply
  | .ok (r, _) => r
  | .error _ => none

/-- State projection of a `processLocationForMeasurement` outcome. -/
def resultState :
    Except Unit (Option MeasurementReply × Option UserMeasurementState) →
      Option UserMeasurementState
  | .ok (_, s) => s
  | .error _ => none

/-- Claim C2 counterexample: starting from `AWAITING_FIRST_POINT`, feeding
two valid points does produce a non-nil `measurement_result` reply, but the
final state is the inactive reset state, not `AWAITING_FIRST_POINT`: a
further valid point is ignored (`null` reply) instead of starting a fresh
measurement. -/
theorem C2_counterexample :
    measStepOf (some (startMeasurement 0 TransportMode.foot)) = MeasStep.awaitingFirstPoint ∧
    resultState (processLocationForMeasurement (some (startMeasurement 0 TransportMode.foot))
        1 2 (GeocodeOutcome.found "A") 10)
      = some { isActive := true,
               firstPoint := some { latitude := 1, longitude := 2, address := some "A" },
               secondPoint := none, timestamp := 10,
               transportMode := some TransportMode.foot } ∧
    measStepOf
        (some { isActive := true,
                firstPoint := some { latitude := (1 : ℝ), longitude := 2,
                                     address := some "A" },
                secondPoint := none, timestamp := 10,
                transportMode := some TransportMode.foot })
      = MeasStep.awaitingSecondPoint ∧
    (resultReply (processLocationForMeasurement
        (some { isActive := true,
                firstPoint := some { latitude := (1 : ℝ), longitude := 2,
                                     address := some "A" },
                secondPoint := none, timestamp := 10,
                transportMode := some TransportMode.foot })
        3 4 (GeocodeOutcome.found "B") 20)).any MeasurementReply.isResult = true ∧
    resultState (processLocationForMeasurement
        (some { isActive := true,
                firstPoint := some { latitude := (1 : ℝ), longitude := 2,
                                     address := some "A" },
                secondPoint := none, timestamp := 10,
                transportMode := some TransportMode.foot })
        3 4 (GeocodeOutcome.found "B") 20)
      = some (initUserMeasurementState 20) ∧
    measStepOf (some (initUserMeasurementState 20)) ≠ MeasStep.awaitingFirstPoint ∧
    processLocationForMeasurement (some (initUserMeasurementState 20)) 5 6
        (GeocodeOutcome.found "C") 30
      = .ok (none, some (initUserMeasurementState 20)) := by
  refine ⟨rfl, rfl, rfl, rfl, rfl, ?_, rfl⟩
  simp [measStepOf, initUserMeasurementState]

/-- Claim C2 (amended): feeding a valid point in `AWAITING_FIRST_POINT` and
then a valid point in the resulting `AWAITING_SECOND_POINT` state always
produces a non-nil `measurement_result` reply and resets the entry to the
inactive initial state (`isActive = false`, both points discarded) — not to
an active `AWAITING_FIRST_POINT` state; a new start command is required
before another measurement is processed. -/
theorem C2_measurement_two_points (st : UserMeasurementState) (lat1 lon1 lat2 lon2 : ℝ)
    (g1 g2 : GeocodeOutcome) (t1 t2 : ℤ)
    (hact : st.isActive = true) (h1 : st.firstPoint = none) (h2 : st.secondPoint = none)
    (hg1 : g1 ≠ GeocodeOutcome.fail) (hg2 : g2 ≠ GeocodeOutcome.fail) :
    ∃ a1 st1 r,
      processLocationForMeasurement (some st) lat1 lon1 g1 t1
        = .ok (some (.firstPointReceived a1 lat1 lon1), some st1) ∧
      measStepOf (some st1) = MeasStep.awaitingSecondPoint ∧
      processLocationForMeasurement (some st1) lat2 lon2 g2 t2
        = .ok (some (.measurementResult r), some (initUserMeasurementState t2)) ∧
      measStepOf (some (initUserMeasurementState t2)) = MeasStep.inactive ∧
      (initUserMeasurementState t2).isActive = false := by
  obtain ⟨act, fp, sp, ts, tm⟩ := st
  simp only at hact h1 h2
  subst hact h1 h2
  cases g1 with
  | fail => exact absurd rfl hg1
  | found n1 =>
    cases g2 with
    | fail => exact absurd rfl hg2
    | found n2 => exact ⟨_, _, _, rfl, rfl, rfl, rfl, rfl⟩
    | noData => exact ⟨_, _, _, rfl, rfl, rfl, rfl, rfl⟩
  | noData =>
    cases g2 with
    | fail => exact absurd rfl hg2
    | found n2 => exact ⟨_, _, _, rfl, rfl, rfl, rfl, rfl⟩
    | noData => exact ⟨_, _, _, rfl, rfl, rfl, rfl, rfl⟩

/-- Witness for the amended C2 at a concrete run. -/
theorem C2_measurement_two_points_witness :
    ∃ a1 st1 r,
      processLocationForMeasurement (some (startMeasurement 0 TransportMode.foot))
          1 2 (GeocodeOutcome.found "A") 10
        = .ok (some (.firstPointReceived a1 1 2), some st1) ∧
      measStepOf (some st1) = MeasStep.awaitingSecondPoint ∧
      processLocationForMeasurement (some st1) 3 4 GeocodeOutcome.noData 20
        = .ok (some (.measurementResult r), some (initUserMeasurementState 20)) ∧
      measStepOf (some (initUserMeasurementState 20)) = MeasStep.inactive ∧
      (initUserMeasurementState 20).isActive = false :=
  C2_measurement_two_points (startMeasurement 0 TransportMode.foot) 1 2 3 4
    (GeocodeOutcome.found "A") GeocodeOutcome.noData 10 20 rfl rfl rfl
    (by decide) (by decide)

/-- Claim C3 counterexample: with an active measurement in
`AWAITING_FIRST_POINT`, the cancel command returns the cancellation
confirmation (not the "nothing to cancel" reply) and resets the entry
(`isActive` flips from `true` to `false`), contradicting the claimed no-op. -/
theorem C3_counterexample :
    cancelMeasurement (some (startMeasurement 0 TransportMode.foot)) 5
      = ("Pengukuran jarak dan rute dibatalkan.", some (initUserMeasurementState 5)) ∧
    measStepOf (some (startMeasurement 0 TransportMode.foot)) = MeasStep.awaitingFirstPoint ∧
    "Pengukuran jarak dan rute dibatalkan." ≠ "Tidak ada pengukuran aktif untuk dibatalkan." ∧
    (startMeasurement 0 TransportMode.foot).isActive = true ∧
    (initUserMeasurementState 5).isActive = false :=
  ⟨rfl, rfl, by decide, rfl, rfl⟩

/-- Claim C3 (amended): the cancel command with an active measurement (in
any step, `AWAITING_FIRST_POINT` included) resets the entry to the inactive
initial state and returns the cancellation confirmation; with no active
measurement (absent entry or `isActive = false`) it returns the "nothing to
cancel" reply and leaves the entry unchanged. -/
theorem C3_cancel_behavior (entry : Option UserMeasurementState) (now : ℤ) :
    (∀ st, entry = some st → st.isActive = true →
      cancelMeasurement entry now
        = ("Pengukuran jarak dan rute dibatalkan.", some (initUserMeasurementState now))) ∧
    (∀ st, entry = some st → st.isActive = false →
      cancelMeasurement entry now
        = ("Tidak ada pengukuran aktif untuk dibatalkan.", entry)) ∧
    (entry = none →
      cancelMeasurement entry now
        = ("Tidak ada pengukuran aktif untuk dibatalkan.", entry)) := by
  refine ⟨?_, ?_, ?_⟩
  · intro st h hact
    subst h
    simp [cancelMeasurement, hact]
  · intro st h hact
    subst h
    simp [cancelMeasurement, hact]
  · intro h
    subst h
    rfl

/-- Witness for the amended C3 on concrete entries. -/
theorem C3_cancel_behavior_witness :
    cancelMeasurement (some (startMeasurement 7 TransportMode.car)) 9
      = ("Pengukuran jarak dan rute dibatalkan.", some (initUserMeasurementState 9)) ∧
    cancelMeasurement (some (initUserMeasurementState 3)) 9
      = ("Tidak ada pengukuran aktif untuk dibatalkan.", some (initUserMeasurementState 3)) ∧
    cancelMeasurement none 9
      = ("Tidak ada pengukuran aktif untuk dibatalkan.", none) :=
  ⟨(C3_cancel_behavior (some (startMeasurement 7 TransportMode.car)) 9).1 _ rfl rfl,
   (C3_cancel_behavior (some (initUserMeasurementState 3)) 9).2.1 _ rfl rfl,
   (C3_cancel_behavior none 9).2.2 rfl⟩

/-- Claim C6 counterexample: a thrown reverse-geocoding error is rethrown
and escapes `processLocationForMeasurement` (an `Except.error`), and the
no-address fallback is the fixed string "Lokasi tidak diketahui" — the same
for distinct points, so it is not the raw coordinate string of the point. -/
theorem C6_counterexample :
    processLocationForMeasurement (some (startMeasurement 0 TransportMode.foot)) 1 2
        GeocodeOutcome.fail 5 = .error () ∧
    resultReply (processLocationForMeasurement (some (startMeasurement 0 TransportMode.foot))
        1 2 GeocodeOutcome.noData 5)
      = some (.firstPointReceived "Lokasi tidak diketahui" 1 2) ∧
    resultReply (processLocationForMeasurement (some (startMeasurement 0 TransportMode.foot))
        3 4 GeocodeOutcome.noData 5)
      = some (.firstPointReceived "Lokasi tidak diketahui" 3 4) :=
  ⟨rfl, rfl, rfl⟩

/-- Claim C6 (amended): when the reverse-geocoding call returns no address
the workflow substitutes the fixed fallback string "Lokasi tidak diketahui"
(not the coordinates) and continues; when the call succeeds the resolved
name is used; when the call throws, the error is logged and rethrown,
escaping the handler. -/
theorem C6_geocode_fallback (st : UserMeasurementState) (lat lon : ℝ) (now : ℤ)
    (name : String) (hact : st.isActive = true) (h1 : st.firstPoint = none) :
    processLocationForMeasurement (some st) lat lon GeocodeOutcome.noData now
      = .ok (some (.firstPointReceived "Lokasi tidak diketahui" lat lon),
          some { st with
                 firstPoint := some { latitude := lat, longitude := lon,
                                      address := some "Lokasi tidak diketahui" },
                 timestamp := now }) ∧
    processLocationForMeasurement (some st) lat lon (GeocodeOutcome.found name) now
      = .ok (some (.firstPointReceived name lat lon),
          some { st with
                 firstPoint := some { latitude := lat, longitude := lon,
                                      address := some name },
                 timestamp := now }) ∧
    processLocationForMeasurement (some st) lat lon GeocodeOutcome.fail now
      = .error () := by
  obtain ⟨act, fp, sp, ts, tm⟩ := st
  simp only at hact h1
  subst hact h1
  exact ⟨rfl, rfl, rfl⟩

/-- Witness for the amended C6 at a concrete state. -/
theorem C6_geocode_fallback_witness :
    processLocationForMeasurement (some (startMeasurement 0 TransportMode.car)) 1 2
        GeocodeOutcome.noData 5
      = .ok (some (.firstPointReceived "Lokasi tidak diketahui" 1 2),
          some { startMeasurement 0 TransportMode.car with
                 firstPoint := some { latitude := 1, longitude := 2,
                                      address := some "Lokasi tidak diketahui" },
                 timestamp := 5 }) ∧
    processLocationForMeasurement (some (startMeasurement 0 TransportMode.car)) 1 2
        (GeocodeOutcome.found "X") 5
      = .ok (some (.firstPointReceived "X" 1 2),
          some { startMeasurement 0 TransportMode.car with
                 firstPoint := some { latitude := 1, longitude := 2,
                                      address := some "X" },
                 timestamp := 5 }) ∧
    processLocationForMeasurement (some (startMeasurement 0 TransportMode.car)) 1 2
        GeocodeOutcome.fail 5 = .error () :=
  C6_geocode_fallback (startMeasurement 0 TransportMode.car) 1 2 5 "X" rfl rfl

/-! ### Mode Manager (.cline/workflows/web-admin-development.md) -/

/-- The non-null `BOT_MODES` constants. -/
inductive BaseMode where
  | menu
  | location
  | workbook
  | ocr
  | rar
  | kml
  | geotags
deriving DecidableEq

/-- `BotMode`: one of the mode constants or `null`. -/
abbrev BotMode := Option BaseMode

/-- A `UserModeState` record of `ModeManager.userModes`. -/
structure UserModeState where
  userId : ℤ
  currentMode : BotMode
  previousMode : BotMode
  modeStartTime : ℤ
  lastActivity : ℤ
deriving DecidableEq

/-- The `Map<number, UserModeState>` of the `ModeManager`, per-key. -/
abbrev ModeMap := ℤ → Option UserModeState

/-- Observable side effects of the mode-manager code, in emission order:
the `modeCleanup` event, the mode-change log entry, the "already in mode"
message, the switch-confirmation message, and the hand-off to the new
mode's initializer (the first point where an event can reach the new
mode's workflow). -/
inductive ModeAction where
  | cleanup (userId : ℤ) (mode : BotMode)
  | logModeChange (userId : ℤ) (previousMode newMode : BotMode) (timestamp : ℤ)
  | sendModeInfo (mode : BotMode)
  | confirmSwitch (currentMode newMode : BotMode)
  | initMode (mode : BotMode)
deriving DecidableEq

/-- `ModeManager.setUserMode(userId, mode)`: reads the previous mode, emits
a `modeCleanup` event when switching away from a different non-null mode,
stores the new record with fresh timestamps, and logs the change. -/
def setUserMode (m : ModeMap) (u : ℤ) (mode : BotMode) (now : ℤ) :
    ModeMap × List ModeAction :=
  let previousMode : BotMode :=
    match m u with
    | some st => st.currentMode
    | none => none
  let cleanupActs : List ModeAction :=
    match previousMode with
    | some p => if some p = mode then [] else [ModeAction.cleanup u (some p)]
    | none => []
  let newMap : ModeMap := fun v =>
    if v = u then
      some { userId := u, currentMode := mode, previousMode := previousMode,
             modeStartTime := now, lastActivity := now }
    else m v
  (newMap, cleanupActs ++ [ModeAction.logModeChange u previousMode mode now])

/-- `ModeManager.getUserMode(userId)`: `state?.currentMode || null`. -/
def getUserMode (m : ModeMap) (u : ℤ) : BotMode :=
  match m u with
  | some st => st.currentMode
  | none => none

/-- `ModeTransitionManager.transitionToMode(userId, newMode, ...)`: if the
user is already in the target mode, only sends the current-mode info; else
(auto-)confirms when leaving a non-menu mode, performs `setUserMode`, and
initializes the new mode. Returns the updated map, the emitted actions in
order, and the boolean result. -/
def transitionToMode (m : ModeMap) (u : ℤ) (newMode : BotMode) (now : ℤ) :
    ModeMap × List ModeAction × Bool :=
  let currentMode := getUserMode m u
  if currentMode = newMode then
    (m, [ModeAction.sendModeInfo newMode], true)
  else
    let confirmActs : List ModeAction :=
      match currentMode with
      | some p =>
        if p = BaseMode.menu then [] else [ModeAction.confirmSwitch (some p) newMode]
      | none => []
    let r := setUserMode m u newMode now
    (r.1, confirmActs ++ r.2 ++ [ModeAction.initMode newMode], true)

/-- The default `timeoutMs` of `ModeManager.cleanupInactiveSessions`
(30 minutes). -/
def DEFAULT_MODE_TIMEOUT : ℤ := 30 * 60 * 1000

/-- `ModeManager.cleanupInactiveSessions(timeoutMs)`: applies
`setUserMode(userId, null)` to every entry whose `lastActivity` is more
than `timeoutMs` in the past (written pointwise; each expired entry is
replaced by the null-mode record `setUserMode` stores for it). -/
def cleanupInactiveSessions (m : ModeMap) (timeoutMs now : ℤ) : ModeMap :=
  fun u =>
    match m u with
    | some st =>
      if now - st.lastActivity > timeoutMs then
        some { userId := u, currentMode := none, previousMode := st.currentMode,
               modeStartTime := now, lastActivity := now }
      else some st
    | none => none

/-- After any `transitionToMode`, the user's current mode is the target
mode. -/
lemma getUserMode_transitionToMode (m : ModeMap) (u : ℤ) (mo : BotMode) (t : ℤ) :
    getUserMode (transitionToMode m u mo t).1 u = mo := by
  by_cases h : getUserMode m u = mo
  · simp only [transitionToMode]
    rw [if_pos h]
    exact h
  · simp only [transitionToMode]
    rw [if_neg h]
    simp [setUserMode, getUserMode]

/-- When the user's current mode is `A` and `B ≠ A` is requested,
`transitionToMode` auto-confirms (unless leaving the menu), emits the
cleanup for `A`, stores the new record with `previousMode = A` and fresh
timestamps, and finally initializes `B`. -/
lemma transitionToMode_switch (m1 : ModeMap) (u : ℤ) (A B : BaseMode) (t2 : ℤ)
    (hcur : getUserMode m1 u = some A) (hAB : A ≠ B) :
    transitionToMode m1 u (some B) t2
      = (fun v =>
          if v = u then
            some { userId := u, currentMode := some B, previousMode := some A,
                   modeStartTime := t2, lastActivity := t2 }
          else m1 v,
        (if A = BaseMode.menu then [] else [ModeAction.confirmSwitch (some A) (some B)]) ++
          [ModeAction.cleanup u (some A),
           ModeAction.logModeChange u (some A) (some B) t2,
           ModeAction.initMode (some B)],
        true) := by
  have hne : getUserMode m1 u ≠ some B := by
    rw [hcur]
    intro hc
    exact hAB (Option.some.inj hc)
  have hm := hcur
  simp only [getUserMode] at hm
  simp only [transitionToMode]
  rw [if_neg hne]
  simp only [setUserMode, hcur, hm]
  simp [hAB]

/-- When the user is already in the requested mode, `transitionToMode`
only sends the current-mode info and leaves the map untouched. -/
lemma transitionToMode_idem (m1 : ModeMap) (u : ℤ) (mo : BotMode) (t : ℤ)
    (h : getUserMode m1 u = mo) :
    transitionToMode m1 u mo t = (m1, [ModeAction.sendModeInfo mo], true) := by
  simp only [transitionToMode]
  rw [if_pos h]

/-- Claim C1: `EnterMode(U, A)` then `EnterMode(U, B)` with `A ≠ B` emits
the cleanup of mode `A` strictly before the hand-off to mode `B`'s
workflow, and records `previousMode = A` with fresh timestamps; calling
`EnterMode(U, A)` again while `A` is current only sends the current-mode
info, leaving the stored session (timestamps included) unchanged and
emitting no cleanup. -/
theorem C1_enter_mode_cleanup_before_init (m : ModeMap) (u : ℤ) (A B : BaseMode)
    (t1 t2 : ℤ) (hAB : A ≠ B) :
    ((transitionToMode (transitionToMode m u (some A) t1).1 u (some B) t2).1 u
      = some { userId := u, currentMode := some B, previousMode := some A,
               modeStartTime := t2, lastActivity := t2 }) ∧
    (∃ i j, i < j ∧
      ((transitionToMode (transitionToMode m u (some A) t1).1 u (some B) t2).2.1.get? i
        = some (ModeAction.cleanup u (some A))) ∧
      ((transitionToMode (transitionToMode m u (some A) t1).1 u (some B) t2).2.1.get? j
        = some (ModeAction.initMode (some B)))) ∧
    transitionToMode (transitionToMode m u (some A) t1).1 u (some A) t2
      = ((transitionToMode m u (some A) t1).1, [ModeAction.sendModeInfo (some A)], true) := by
  have h1 : getUserMode (transitionToMode m u (some A) t1).1 u = some A :=
    getUserMode_transitionToMode m u (some A) t1
  have h2 := transitionToMode_switch (transitionToMode m u (some A) t1).1 u A B t2 h1 hAB
  refine ⟨?_, ?_, ?_⟩
  · rw [h2]
    simp
  · rw [h2]
    by_cases hA : A = BaseMode.menu
    · rw [if_pos hA]
      exact ⟨0, 2, by norm_num, rfl, rfl⟩
    · rw [if_neg hA]
      exact ⟨1, 3, by norm_num, rfl, rfl⟩
  · exact transitionToMode_idem _ u (some A) t2 h1

/-- Witness for C1: a fresh user entering `location` then `kml`. -/
theorem C1_enter_mode_cleanup_before_init_witness :
    ((transitionToMode (transitionToMode (fun _ => none) 1 (some BaseMode.location) 0).1
        1 (some BaseMode.kml) 5).1 1
      = some { userId := 1, currentMode := some BaseMode.kml,
               previousMode := some BaseMode.location,
               modeStartTime := 5, lastActivity := 5 }) ∧
    (∃ i j, i < j ∧
      ((transitionToMode (transitionToMode (fun _ => none) 1 (some BaseMode.location) 0).1
          1 (some BaseMode.kml) 5).2.1.get? i
        = some (ModeAction.cleanup 1 (some BaseMode.location))) ∧
      ((transitionToMode (transitionToMode (fun _ => none) 1 (some BaseMode.location) 0).1
          1 (some BaseMode.kml) 5).2.1.get? j
        = some (ModeAction.initMode (some BaseMode.kml)))) ∧
    transitionToMode (transitionToMode (fun _ => none) 1 (some BaseMode.location) 0).1
        1 (some BaseMode.location) 5
      = ((transitionToMode (fun _ => none) 1 (some BaseMode.location) 0).1,
         [ModeAction.sendModeInfo (some BaseMode.location)], true) :=
  C1_enter_mode_cleanup_before_init (fun _ => none) 1 BaseMode.location BaseMode.kml 0 5
    (by decide)

/-! ### Geotags session store (geotags.service.ts) -/

/-- A `UserGeotagsState` entry of `GeotagsService.userStates`. -/
structure UserGeotagsState where
  pendingPhotoFileId : Option String
  alwaysTagLocation : Option (ℝ × ℝ)
  isWaitingForStickyLocation : Option Bool
  customDateTime : Option ℤ
  timestamp : ℤ

/-- `GeotagsService.STATE_TIMEOUT` (10 minutes). -/
def GEOTAGS_STATE_TIMEOUT : ℤ := 10 * 60 * 1000

/-- `GeotagsService.cleanupExpiredStates()`: deletes every entry whose
`timestamp` is more than `STATE_TIMEOUT` in the past (written pointwise). -/
def cleanupExpiredStates (states : String → Option UserGeotagsState) (now : ℤ) :
    String → Option UserGeotagsState :=
  fun k =>
    match states k with
    | some st => if now - st.timestamp > GEOTAGS_STATE_TIMEOUT then none else some st
    | none => none

/-- Claim C7: the geotags sweep removes exactly the entries idle longer
than the TTL (and only those), and for users swept by the mode manager's
`cleanupInactiveSessions`, `getUserMode` reports `null` afterwards while
non-expired entries are left unchanged. -/
theorem C7_sweep_removes_expired
    (states : String → Option UserGeotagsState) (now : ℤ) (k : String)
    (m : ModeMap) (ttl now2 u : ℤ) :
    (∀ st, states k = some st → now - st.timestamp > GEOTAGS_STATE_TIMEOUT →
      cleanupExpiredStates states now k = none) ∧
    (∀ st, states k = some st → ¬(now - st.timestamp > GEOTAGS_STATE_TIMEOUT) →
      cleanupExpiredStates states now k = some st) ∧
    (states k = none → cleanupExpiredStates states now k = none) ∧
    (∀ st, m u = some st → now2 - st.lastActivity > ttl →
      getUserMode (cleanupInactiveSessions m ttl now2) u = none) ∧
    (∀ st, m u = some st → ¬(now2 - st.lastActivity > ttl) →
      cleanupInactiveSessions m ttl now2 u = some st) := by
  refine ⟨?_, ?_, ?_, ?_, ?_⟩
  · intro st h hc
    simp [cleanupExpiredStates, h, hc]
  · intro st h hc
    simp [cleanupExpiredStates, h, hc]
  · intro h
    simp [cleanupExpiredStates, h]
  · intro st h hc
    simp [getUserMode, cleanupInactiveSessions, h, hc]
  · intro st h hc
    simp [cleanupInactiveSessions, h, hc]

/-- Witness for C7: one expired and one live geotags entry, one expired and
one live mode session. -/
theorem C7_sweep_removes_expired_witness :
    cleanupExpiredStates
        (fun k => if k = "u1" then some ⟨none, none, none, none, 0⟩
          else if k = "u2" then some ⟨none, none, none, none, 999500000⟩ else none)
        1000000000 "u1" = none ∧
    cleanupExpiredStates
        (fun k => if k = "u1" then some ⟨none, none, none, none, 0⟩
          else if k = "u2" then some ⟨none, none, none, none, 999500000⟩ else none)
        1000000000 "u2" = some ⟨none, none, none, none, 999500000⟩ ∧
    cleanupExpiredStates
        (fun k => if k = "u1" then some ⟨none, none, none, none, 0⟩
          else if k = "u2" then some ⟨none, none, none, none, 999500000⟩ else none)
        1000000000 "zz" = none ∧
    getUserMode
        (cleanupInactiveSessions
          (fun v => if v = 7 then some ⟨7, some BaseMode.location, none, 0, 0⟩
            else if v = 8 then some ⟨8, some BaseMode.kml, none, 0, 999500000⟩ else none)
          1800000 1000000000) 7 = none ∧
    cleanupInactiveSessions
        (fun v => if v = 7 then some ⟨7, some BaseMode.location, none, 0, 0⟩
          else if v = 8 then some ⟨8, some BaseMode.kml, none, 0, 999500000⟩ else none)
        1800000 1000000000 8 = some ⟨8, some BaseMode.kml, none, 0, 999500000⟩ := by
  refine ⟨?_, ?_, ?_, ?_, ?_⟩
  · exact (C7_sweep_removes_expired
      (fun k => if k = "u1" then some ⟨none, none, none, none, 0⟩
        else if k = "u2" then some ⟨none, none, none, none, 999500000⟩ else none)
      1000000000 "u1" (fun _ => none) 0 0 0).1 ⟨none, none, none, none, 0⟩
      (by simp) (by decide)
  · exact (C7_sweep_removes_expired
      (fun k => if k = "u1" then some ⟨none, none, none, none, 0⟩
        else if k = "u2" then some ⟨none, none, none, none, 999500000⟩ else none)
      1000000000 "u2" (fun _ => none) 0 0 0).2.1 ⟨none, none, none, none, 999500000⟩
      (by simp) (by decide)
  · exact (C7_sweep_removes_expired
      (fun k => if k = "u1" then some ⟨none, none, none, none, 0⟩
        else if k = "u2" then some ⟨none, none, none, none, 999500000⟩ else none)
      1000000000 "zz" (fun _ => none) 0 0 0).2.2.1 (by simp)
  · exact (C7_sweep_removes_expired (fun _ => none) 0 ""
      (fun v => if v = 7 then some ⟨7, some BaseMode.location, none, 0, 0⟩
        else if v = 8 then some ⟨8, some BaseMode.kml, none, 0, 999500000⟩ else none)
      1800000 1000000000 7).2.2.2.1 ⟨7, some BaseMode.location, none, 0, 0⟩
      (by simp) (by decide)
  · exact (C7_sweep_removes_expired (fun _ => none) 0 ""
      (fun v => if v = 7 then some ⟨7, some BaseMode.location, none, 0, 0⟩
        else if v = 8 then some ⟨8, some BaseMode.kml, none, 0, 999500000⟩ else none)
      1800000 1000000000 8).2.2.2.2 ⟨8, some BaseMode.kml, none, 0, 999500000⟩
      (by simp) (by decide)

/-- Claim C8 counterexample: a session idle far beyond the default 30-minute
TTL (lastActivity 0, now 10,000,000 ms) still reports its stored mode from
`getUserMode` — not `NONE` — because `getUserMode` performs no expiry check
before the background sweep runs. -/
theorem C8_counterexample :
    getUserMode
        (fun v => if v = (7 : ℤ) then
          some { userId := 7, currentMode := some BaseMode.location, previousMode := none,
                 modeStartTime := 0, lastActivity := 0 }
          else none) 7
      = some BaseMode.location ∧
    (10000000 : ℤ) - 0 > DEFAULT_MODE_TIMEOUT := by
  constructor
  · simp [getUserMode]
  · decide

/-- Claim C8 (amended): `getUserMode` returns `NONE` when no session record
exists; when a record exists it returns the stored `currentMode` with no
expiry check, so an idle-expired session keeps reporting its mode until the
background sweep (`cleanupInactiveSessions`) runs, after which it reports
`NONE`. -/
theorem C8_current_mode_none (m : ModeMap) (u : ℤ) :
    (m u = none → getUserMode m u = none) ∧
    (∀ st, m u = some st → getUserMode m u = st.currentMode) ∧
    (∀ st ttl now, m u = some st → now - st.lastActivity > ttl →
      getUserMode (cleanupInactiveSessions m ttl now) u = none) := by
  refine ⟨?_, ?_, ?_⟩
  · intro h
    simp [getUserMode, h]
  · intro st h
    simp [getUserMode, h]
  · intro st ttl now h hc
    simp [getUserMode, cleanupInactiveSessions, h, hc]

/-- Witness for the amended C8 on concrete maps. -/
theorem C8_current_mode_none_witness :
    getUserMode (fun _ => none) 9 = none ∧
    getUserMode (fun v => if v = (7 : ℤ) then
        some ⟨7, some BaseMode.kml, none, 0, 0⟩ else none) 7 = some BaseMode.kml ∧
    getUserMode
        (cleanupInactiveSessions
          (fun v => if v = (7 : ℤ) then some ⟨7, some BaseMode.kml, none, 0, 0⟩ else none)
          100 1000) 7 = none :=
  ⟨(C8_current_mode_none (fun _ => none) 9).1 rfl,
   (C8_current_mode_none
      (fun v => if v = (7 : ℤ) then some ⟨7, some BaseMode.kml, none, 0, 0⟩ else none) 7).2.1
      ⟨7, some BaseMode.kml, none, 0, 0⟩ (by simp),
   (C8_current_mode_none
      (fun v => if v = (7 : ℤ) then some ⟨7, some BaseMode.kml, none, 0, 0⟩ else none) 7).2.2
      ⟨7, some BaseMode.kml, none, 0, 0⟩ 100 1000 (by simp) (by decide)⟩

/-! ### KML authoring (kml.service.ts) -/

/-- A KML `GeoPoint` (latitude, longitude). -/
structure KmlGeoPoint where
  latitude : ℝ
  longitude : ℝ

/-- A `NamedPoint` placemark. -/
structure KmlNamedPoint where
  latitude : ℝ
  longitude : ℝ
  name : String
  timestamp : ℤ

/-- A finished `LineTrack`. -/
structure LineTrack where
  name : String
  coordinates : List KmlGeoPoint
  timestamp : ℤ

/-- The `activeLine` record (`name`, `points`). -/
structure ActiveLine where
  name : String
  points : List KmlGeoPoint

/-- A `UserKmlData` entry of `KmlService.userKmlData`. -/
structure UserKmlData where
  placemarks : List KmlNamedPoint
  lines : List LineTrack
  activeLine : Option ActiveLine
  persistentPointName : Option String

/-- `KmlService.initUserKmlData`: the default empty record. -/
def initUserKmlData : UserKmlData :=
  { placemarks := [], lines := [], activeLine := none, persistentPointName := none }

/-- The replies of the KML operations (full message strings are determined
by these shapes and are omitted). -/
inductive KmlReply where
  | invalidCoordinates
  | addedToLine (lineName : String) (total : ℕ)
  | pointSaved (pointName : String)
  | alreadyDrawing (lineName : String)
  | startedLine (lineName : String)
  | noActiveLine
  | tooFewPoints (lineName : String) (count : ℕ)
  | lineSaved (lineName : String) (count : ℕ)
  | noActiveLineToCancel
  | lineCancelled (lineName : String)
  | dataCleared

/-- `KmlService.addPoint(telegramId, lat, lon, pointName?)`, as a function
of the user's data, the user's `nextPointNames` entry, the coordinates and
the time. Validates the coordinate range; appends to the active line when
one exists, otherwise saves an individual placemark named by the explicit
name, the (consumed) next-point name, the persistent name, or a default. -/
noncomputable def addPoint (d : UserKmlData) (next : Option String) (lat lon : ℝ)
    (pointName : Option String) (now : ℤ) : UserKmlData × Option String × KmlReply :=
  if lat < -90 ∨ 90 < lat ∨ lon < -180 ∨ 180 < lon then
    (d, next, .invalidCoordinates)
  else
    match d.activeLine with
    | some al =>
      ({ d with activeLine := some { al with points := al.points ++ [⟨lat, lon⟩] } },
       next, .addedToLine al.name (al.points.length + 1))
    | none =>
      let choice : String × Option String :=
        match pointName with
        | some pn => (pn, next)
        | none =>
          match next with
          | some nn => (nn, none)
          | none =>
            match d.persistentPointName with
            | some pp => (pp, next)
            | none => ("Titik " ++ toString (d.placemarks.length + 1), next)
      ({ d with placemarks := d.placemarks ++
          [{ latitude := lat, longitude := lon, name := choice.1, timestamp := now }] },
       choice.2, .pointSaved choice.1)

/-- `KmlService.handleLocation(telegramId, lat, lon)`: like `addPoint`
without an explicit name and without range validation; the default name is
"Titik Terlampir N". -/
def handleLocation (d : UserKmlData) (next : Option String) (lat lon : ℝ)
    (now : ℤ) : UserKmlData × Option String × KmlReply :=
  match d.activeLine with
  | some al =>
    ({ d with activeLine := some { al with points := al.points ++ [⟨lat, lon⟩] } },
     next, .addedToLine al.name (al.points.length + 1))
  | none =>
    let choice : String × Option String :=
      match next with
      | some nn => (nn, none)
      | none =>
        match d.persistentPointName with
        | some pp => (pp, next)
        | none => ("Titik Terlampir " ++ toString (d.placemarks.length + 1), next)
    ({ d with placemarks := d.placemarks ++
        [{ latitude := lat, longitude := lon, name := choice.1, timestamp := now }] },
     choice.2, .pointSaved choice.1)

/-- `KmlService.startLine(telegramId, lineName?)`. -/
def startLine (d : UserKmlData) (next : Option String) (lineName : Option String) :
    UserKmlData × Option String × KmlReply :=
  match d.activeLine with
  | some al => (d, next, .alreadyDrawing al.name)
  | none =>
    let fn := lineName.getD ("Garis " ++ toString (d.lines.length + 1))
    ({ d with activeLine := some { name := fn, points := [] } }, next, .startedLine fn)

/-- `KmlService.endLine(telegramId)`: warns (state unchanged) when no line
is active or the active line has fewer than 2 points; otherwise moves the
active line into `lines`. -/
def endLine (d : UserKmlData) (next : Option String) (now : ℤ) :
    UserKmlData × Option String × KmlReply :=
  match d.activeLine with
  | none => (d, next, .noActiveLine)
  | some al =>
    if al.points.length < 2 then
      (d, next, .tooFewPoints al.name al.points.length)
    else
      ({ d with
         lines := d.lines ++ [{ name := al.name, coordinates := al.points, timestamp := now }],
         activeLine := none },
       next, .lineSaved al.name al.points.length)

/-- `KmlService.cancelLine(telegramId)`. -/
def cancelLine (d : UserKmlData) (next : Option String) :
    UserKmlData × Option String × KmlReply :=
  match d.activeLine with
  | none => (d, next, .noActiveLineToCancel)
  | some al => ({ d with activeLine := none }, next, .lineCancelled al.name)

/-- `KmlService.clearData(telegramId)`: re-initializes the data and deletes
the `nextPointNames` entry. -/
def clearData : UserKmlData × Option String × KmlReply :=
  (initUserKmlData, none, .dataCleared)

/-- The state-mutating KML operations. -/
inductive KmlOp where
  | addPoint (lat lon : ℝ) (pointName : Option String)
  | handleLocation (lat lon : ℝ)
  | startLine (lineName : Option String)
  | endLine
  | cancelLine
  | clearData

/-- Dispatcher over the KML operations. -/
noncomputable def applyKmlOp (d : UserKmlData) (next : Option String) (op : KmlOp)
    (now : ℤ) : UserKmlData × Option String × KmlReply :=
  match op with
  | .addPoint lat lon pointName => addPoint d next lat lon pointName now
  | .handleLocation lat lon => handleLocation d next lat lon now
  | .startLine lineName => startLine d next lineName
  | .endLine => endLine d next now
  | .cancelLine => cancelLine d next
  | .clearData => clearData

/-- The placemark elements emitted by `KmlService.createKmlContent` (XML
escaping left out: names are carried verbatim). -/
inductive KmlElem where
  | pointPlacemark (name : String) (longitude latitude : ℝ)
  | linePlacemark (name : String) (coordinates : List KmlGeoPoint)

/-- `KmlService.createKmlContent(userData, docName)`, modelled as the list
of emitted placemark elements: all individual points, the saved lines with
at least 2 coordinates (shorter ones are skipped), and the active line if
it has at least 2 points. -/
def createKmlElements (d : UserKmlData) : List KmlElem :=
  d.placemarks.map (fun p => KmlElem.pointPlacemark p.name p.longitude p.latitude) ++
  ((d.lines.filter (fun l => !(l.coordinates.length < 2))).map
    (fun l => KmlElem.linePlacemark l.name l.coordinates)) ++
  (match d.activeLine with
   | some al =>
     if 2 ≤ al.points.length then
       [KmlElem.linePlacemark (al.name ++ " (Sedang dibuat)") al.points]
     else []
   | none => [])

/-- Invariant: every finished line stored in `lines` has at least 2
coordinates. -/
def linesOk (d : UserKmlData) : Prop :=
  ∀ l ∈ d.lines, 2 ≤ l.coordinates.length

/-- Claim C10: every stored finished line has at least 2 coordinates — the
invariant holds initially and is preserved by every KML operation;
`endLine` on an active line with fewer than 2 points returns the warning
reply and leaves the whole state (active line included) unchanged; and KML
generation emits a `LineString` only for lines with at least 2 points. -/
theorem C10_kml_lines_min_two_points (d : UserKmlData) (next : Option String)
    (op : KmlOp) (now : ℤ) (hinv : linesOk d) :
    linesOk (applyKmlOp d next op now).1 ∧
    (∀ al, d.activeLine = some al → al.points.length < 2 →
      endLine d next now = (d, next, KmlReply.tooFewPoints al.name al.points.length)) ∧
    (∀ name coords, KmlElem.linePlacemark name coords ∈ createKmlElements d →
      2 ≤ coords.length) ∧
    linesOk initUserKmlData := by
  refine ⟨?_, ?_, ?_, ?_⟩
  · cases op with
    | addPoint lat lon pointName =>
      simp only [applyKmlOp, addPoint]
      split_ifs with hv
      · exact hinv
      · cases hAl : d.activeLine with
        | some al =>
          simp only [hAl]
          intro l hl
          exact hinv l hl
        | none =>
          simp only [hAl]
          intro l hl
          exact hinv l hl
    | handleLocation lat lon =>
      simp only [applyKmlOp, handleLocation]
      cases hAl : d.activeLine with
      | some al =>
        simp only [hAl]
        intro l hl
        exact hinv l hl
      | none =>
        simp only [hAl]
        intro l hl
        exact hinv l hl
    | startLine lineName =>
      simp only [applyKmlOp, startLine]
      cases hAl : d.activeLine with
      | some al =>
        simp only [hAl]
        exact hinv
      | none =>
        simp only [hAl]
        intro l hl
        exact hinv l hl
    | endLine =>
      simp only [applyKmlOp, endLine]
      cases hAl : d.activeLine with
      | none =>
        simp only [hAl]
        exact hinv
      | some al =>
        simp only [hAl]
        split_ifs with hlen
        · exact hinv
        · intro l hl
          rcases List.mem_append.mp hl with h1 | h2
          · exact hinv l h1
          · rw [List.mem_singleton] at h2
            subst h2
            simpa using not_lt.mp hlen
    | cancelLine =>
      simp only [applyKmlOp, cancelLine]
      cases hAl : d.activeLine with
      | none =>
        simp only [hAl]
        exact hinv
      | some al =>
        simp only [hAl]
        intro l hl
        exact hinv l hl
    | clearData =>
      simp only [applyKmlOp, clearData]
      intro l hl
      simp [initUserKmlData] at hl
  · intro al hAl hlen
    simp only [endLine, hAl]
    rw [if_pos hlen]
  · intro name coords hmem
    simp only [createKmlElements] at hmem
    rcases List.mem_append.mp hmem with h1 | h2
    · rcases List.mem_append.mp h1 with hp | hl
      · rcases List.mem_map.mp hp with ⟨p, _, hpe⟩
        cases hpe
      · rcases List.mem_map.mp hl with ⟨l, hlmem, hle⟩
        have hf := (List.mem_filter.mp hlmem).2
        simp only [Bool.not_eq_eq_eq_not, Bool.not_true, decide_eq_false_iff_not,
          not_lt] at hf
        injection hle with hn hc
        subst hc
        exact hf
    · cases hAl : d.activeLine with
      | none =>
        rw [hAl] at h2
        simp at h2
      | some al =>
        rw [hAl] at h2
        dsimp only at h2
        by_cases hq : 2 ≤ al.points.length
        · rw [if_pos hq, List.mem_singleton] at h2
          injection h2 with hn hc
          subst hc
          exact hq
        · rw [if_neg hq] at h2
          simp at h2
  · intro l hl
    simp [initUserKmlData] at hl

/-- Witness for C10: a stored two-point line, an active one-point line, and
an `endLine` call. -/
theorem C10_kml_lines_min_two_points_witness :
    linesOk (applyKmlOp
      { placemarks := [],
        lines := [{ name := "L", coordinates := [⟨0, 0⟩, ⟨1, 1⟩], timestamp := 0 }],
        activeLine := some { name := "M", points := [⟨2, 2⟩] },
        persistentPointName := none }
      none KmlOp.endLine 5).1 ∧
    (∀ al,
      ({ placemarks := [],
         lines := [{ name := "L", coordinates := [⟨0, 0⟩, ⟨1, 1⟩], timestamp := 0 }],
         activeLine := some { name := "M", points := [⟨2, 2⟩] },
         persistentPointName := none } : UserKmlData).activeLine = some al →
      al.points.length < 2 →
      endLine
          { placemarks := [],
            lines := [{ name := "L", coordinates := [⟨0, 0⟩, ⟨1, 1⟩], timestamp := 0 }],
            activeLine := some { name := "M", points := [⟨2, 2⟩] },
            persistentPointName := none }
          none 5
        = ({ placemarks := [],
             lines := [{ name := "L", coordinates := [⟨0, 0⟩, ⟨1, 1⟩], timestamp := 0 }],
             activeLine := some { name := "M", points := [⟨2, 2⟩] },
             persistentPointName := none },
           none, KmlReply.tooFewPoints al.name al.points.length)) ∧
    (∀ name coords, KmlElem.linePlacemark name coords ∈ createKmlElements
      { placemarks := [],
        lines := [{ name := "L", coordinates := [⟨0, 0⟩, ⟨1, 1⟩], timestamp := 0 }],
        activeLine := some { name := "M", points := [⟨2, 2⟩] },
        persistentPointName := none } →
      2 ≤ coords.length) ∧
    linesOk initUserKmlData :=
  C10_kml_lines_min_two_points
    { placemarks := [],
      lines := [{ name := "L", coordinates := [⟨0, 0⟩, ⟨1, 1⟩], timestamp := 0 }],
      activeLine := some { name := "M", points := [⟨2, 2⟩] },
      persistentPointName := none }
    none KmlOp.endLine 5
    (by
      intro l hl
      simp only [List.mem_singleton] at hl
      subst hl
      simp)

end WebBotTele
